import Mathlib

/-!
Verification of the credential-store / session-gate logic of `src/app.py`
(a minimal Flask registration/login/session demo).

The embedding mirrors the source:
* `USERS` is an in-memory mapping from identity (email string) to an account
  record `{password, role}`; modelled as an association list with `getUser`
  playing the part of `USERS.get(email)` / `email in USERS`.
* The per-client session is `session['user_id']`, modelled as
  `Option String` (`none` = key absent).
* Form fields arrive through `request.form.get(...)`, which yields `None`
  when the field is missing; modelled as `Option String`.
* Python truthiness of a form value (`not email`) is true for both `None`
  and the empty string; modelled by `isBlank`.
-/

/-- An account record as stored in `USERS`: `{'password': ..., 'role': ...}`. -/
structure Account where
  password : String
  role : String
deriving DecidableEq, Repr

/-- The `USERS` mapping: identity (email) to account record. -/
abbrev Store := List (String × Account)

/-- `USERS.get(email)`: lookup of an identity in the store. -/
def getUser (users : Store) (e : String) : Option Account :=
  match users with
  | [] => none
  | (k, a) :: rest => if k = e then some a else getUser rest e

/-- The whole mutable state of the app: the `USERS` dict and the
per-client session slot `session['user_id']`. -/
structure AppState where
  users : Store
  sessionUserId : Option String
deriving DecidableEq, Repr

/-- The error taxonomy of the spec; in the source each is a distinct
user-visible error message / redirect. -/
inductive AppError where
  | validationError
  | duplicateIdentityError
  | invalidCredentialsError
  | unauthenticatedError
deriving DecidableEq, Repr

/-- Python truthiness test `not field` on a form value:
true when the field is missing (`None`) or the empty string. -/
def isBlank : Option String → Bool
  | none => true
  | some s => s.isEmpty

/-- `session['user_id'] = email`: unconditionally sets the session slot,
overwriting any prior identity. -/
def establish (identity : String) (_ : Option String) : Option String :=
  some identity

/-- `session.pop('user_id', None)`: removes the session identity;
a no-op when the slot is already empty. -/
def clear (_ : Option String) : Option String :=
  none

/-- `session.get('user_id')`: the currently active identity, if any. -/
def current (s : Option String) : Option String :=
  s

/-- The gate of the protected resource: `if not session.get('user_id')`
redirects to login (Python truthiness: `None` and `''` both fail the
gate); otherwise the active identity is returned. -/
def require (s : Option String) : Except AppError String :=
  match s with
  | none => Except.error AppError.unauthenticatedError
  | some u => if u.isEmpty then Except.error AppError.unauthenticatedError else Except.ok u

/-- The POST branch of the `/register` handler:
```
if not email or not password:  ValidationError
elif email in USERS:           DuplicateIdentityError
else: USERS[email] = {'password': password, 'role': 'user'};
      session['user_id'] = email
```
The `role` is fixed server-side to `'user'`; the caller supplies no role. -/
def register (email? password? : Option String) (st : AppState) :
    Except AppError Unit × AppState :=
  if isBlank email? || isBlank password? then
    (Except.error AppError.validationError, st)
  else
    match email?, password? with
    | some e, some p =>
      if (getUser st.users e).isSome then
        (Except.error AppError.duplicateIdentityError, st)
      else
        (Except.ok (),
         { users := (e, { password := p, role := "user" }) :: st.users,
           sessionUserId := establish e st.sessionUserId })
    | _, _ => (Except.error AppError.validationError, st)

/-- The POST branch of the `/login` handler:
```
user = USERS.get(email)
if not user or user.get('password') != password:  InvalidCredentialsError
else: session['user_id'] = email
```
A missing email (`None`) never hits a stored key; the password comparison
is exact string equality (a missing password never equals a stored one). -/
def login (email? password? : Option String) (st : AppState) :
    Except AppError Unit × AppState :=
  match email? with
  | none => (Except.error AppError.invalidCredentialsError, st)
  | some e =>
    match getUser st.users e with
    | none => (Except.error AppError.invalidCredentialsError, st)
    | some u =>
      if password? = some u.password then
        (Except.ok (), { st with sessionUserId := establish e st.sessionUserId })
      else
        (Except.error AppError.invalidCredentialsError, st)

/-- The `/logout` handler: clears the session identity. -/
def logout (st : AppState) : AppState :=
  { st with sessionUserId := clear st.sessionUserId }

/-- The `/dashboard` handler's gating decision, applied to the app state. -/
def dashboard (st : AppState) : Except AppError String :=
  require st.sessionUserId

/-- App states reachable from the initial state (`USERS = {}`, no session)
through the request handlers. -/
inductive Reachable : AppState → Prop where
  | init : Reachable { users := [], sessionUserId := none }
  | stepRegister (e p : Option String) {st : AppState} :
      Reachable st → Reachable (register e p st).2
  | stepLogin (e p : Option String) {st : AppState} :
      Reachable st → Reachable (login e p st).2
  | stepLogout {st : AppState} :
      Reachable st → Reachable (logout st)

/-- Claim C1: `authenticate(identity, password)` succeeds iff the store
holds an account for `identity` whose stored password is exactly
`password`; in every other case it fails with `InvalidCredentialsError`. -/
theorem login_ok_iff_exact_match (st : AppState) (identity password : String) :
    (((login (some identity) (some password) st).1 = Except.ok ()) ↔
      (∃ a, getUser st.users identity = some a ∧ a.password = password))
    ∧ ((login (some identity) (some password) st).1 = Except.ok () ∨
       (login (some identity) (some password) st).1 =
         Except.error AppError.invalidCredentialsError) := by
  cases h : getUser st.users identity with
  | none =>
    refine ⟨⟨fun hk => ?_, fun hex => ?_⟩, Or.inr ?_⟩
    · simp [login, h] at hk
    · obtain ⟨a, ha, _⟩ := hex
      cases ha
    · simp [login, h]
  | some u =>
    by_cases hp : password = u.password
    · subst hp
      refine ⟨⟨fun _ => ⟨u, rfl, rfl⟩, fun _ => ?_⟩, Or.inl ?_⟩
      · simp [login, h]
      · simp [login, h]
    · refine ⟨⟨fun hk => ?_, fun hex => ?_⟩, Or.inr ?_⟩
      · simp [login, h, hp] at hk
      · obtain ⟨a, ha, hpw⟩ := hex
        injection ha with ha
        subst ha
        exact absurd hpw.symm hp
      · simp [login, h, hp]

/-- Claim C2 as stated is false: with identity "a" present in the store,
a register call for "a" with the (empty) password "" fails with
`ValidationError`, not `DuplicateIdentityError` — the emptiness check
runs before the duplicate check. -/
theorem register_duplicate_any_password_counterexample :
    getUser [("a", { password := "p1", role := "user" })] "a" =
      some { password := "p1", role := "user" } ∧
    (register (some "a") (some "")
        { users := [("a", { password := "p1", role := "user" })],
          sessionUserId := none }).1 =
      Except.error AppError.validationError ∧
    (register (some "a") (some "")
        { users := [("a", { password := "p1", role := "user" })],
          sessionUserId := none }).1 ≠
      Except.error AppError.duplicateIdentityError := by
  refine ⟨rfl, rfl, fun hk => ?_⟩
  injection hk with hk
  cases hk

/-- Claim C2 (amended): for every store state, every non-empty identity
already present in the store, and every non-empty password, a second
register call with that identity fails with `DuplicateIdentityError` and
the whole state (in particular the stored account) is unchanged. -/
theorem register_duplicate_fails (st : AppState) (e p : String) (a : Account)
    (he : e.isEmpty = false) (hp : p.isEmpty = false)
    (ha : getUser st.users e = some a) :
    (register (some e) (some p) st).1 = Except.error AppError.duplicateIdentityError ∧
    (register (some e) (some p) st).2 = st := by
  have hsome : (getUser st.users e).isSome = true := by rw [ha]; rfl
  simp [register, isBlank, he, hp, hsome]

/-- Witness for `register_duplicate_fails` at a concrete input. -/
theorem register_duplicate_fails_witness :
    (register (some "a") (some "p2")
        { users := [("a", { password := "p1", role := "user" })],
          sessionUserId := none }).1 =
      Except.error AppError.duplicateIdentityError ∧
    (register (some "a") (some "p2")
        { users := [("a", { password := "p1", role := "user" })],
          sessionUserId := none }).2 =
      { users := [("a", { password := "p1", role := "user" })],
        sessionUserId := none } :=
  register_duplicate_fails _ "a" "p2" { password := "p1", role := "user" } rfl rfl rfl

/-- Claim C3: registering with an empty or missing identity, or an empty
or missing password, fails with `ValidationError` and leaves the whole
state (in particular the store) unchanged. -/
theorem register_blank_validation (email? password? : Option String) (st : AppState)
    (h : isBlank email? = true ∨ isBlank password? = true) :
    (register email? password? st).1 = Except.error AppError.validationError ∧
    (register email? password? st).2 = st := by
  cases h with
  | inl h => simp [register, h]
  | inr h => simp [register, h]

/-- Witness for `register_blank_validation` at a concrete input. -/
theorem register_blank_validation_witness :
    (register none (some "p") { users := [], sessionUserId := none }).1 =
      Except.error AppError.validationError ∧
    (register none (some "p") { users := [], sessionUserId := none }).2 =
      { users := [], sessionUserId := none } :=
  register_blank_validation none (some "p") _ (Or.inl rfl)

/-- Claim C4: registering a non-empty identity that is not yet in the
store, with a non-empty password, succeeds, inserts an account holding
that password (and role "user"), and establishes the session for the
identity. -/
theorem register_new_identity_succeeds (st : AppState) (e p : String)
    (he : e.isEmpty = false) (hp : p.isEmpty = false)
    (habs : getUser st.users e = none) :
    (register (some e) (some p) st).1 = Except.ok () ∧
    getUser (register (some e) (some p) st).2.users e =
      some { password := p, role := "user" } ∧
    (register (some e) (some p) st).2.sessionUserId = some e := by
  have hnone : (getUser st.users e).isSome = false := by rw [habs]; rfl
  simp [register, isBlank, he, hp, hnone, getUser, establish]

/-- Witness for `register_new_identity_succeeds` at a concrete input. -/
theorem register_new_identity_succeeds_witness :
    (register (some "a") (some "p") { users := [], sessionUserId := none }).1 =
      Except.ok () ∧
    getUser (register (some "a") (some "p")
        { users := [], sessionUserId := none }).2.users "a" =
      some { password := "p", role := "user" } ∧
    (register (some "a") (some "p")
        { users := [], sessionUserId := none }).2.sessionUserId = some "a" :=
  register_new_identity_succeeds _ "a" "p" rfl rfl rfl

/-- Helper: the login handler never touches the `USERS` store. -/
theorem login_users_eq (email? password? : Option String) (st : AppState) :
    (login email? password? st).2.users = st.users := by
  cases email? with
  | none => rfl
  | some e =>
    cases h : getUser st.users e with
    | none => simp [login, h]
    | some u =>
      by_cases hp : password? = some u.password
      · simp [login, h, hp]
      · simp [login, h, hp]

/-- Helper: a register call either leaves the store unchanged or prepends
one account — a non-empty identity not previously present, carrying the
supplied non-empty password and role "user". -/
theorem register_users_shape (email? password? : Option String) (st : AppState) :
    (register email? password? st).2.users = st.users ∨
    ∃ e p, email? = some e ∧ password? = some p ∧
      e.isEmpty = false ∧ p.isEmpty = false ∧
      getUser st.users e = none ∧
      (register email? password? st).2.users =
        (e, { password := p, role := "user" }) :: st.users := by
  cases email? with
  | none => left; simp [register, isBlank]
  | some e =>
    cases password? with
    | none => left; simp [register, isBlank]
    | some p =>
      cases he : e.isEmpty with
      | true => left; simp [register, isBlank, he]
      | false =>
        cases hp : p.isEmpty with
        | true => left; simp [register, isBlank, he, hp]
        | false =>
          cases hd : getUser st.users e with
          | some u => left; simp [register, isBlank, he, hp, hd]
          | none =>
            right
            exact ⟨e, p, rfl, rfl, he, hp, hd, by simp [register, isBlank, he, hp, hd]⟩

/-- Helper: a register call either succeeds or returns the state unchanged. -/
theorem register_fail_frame (email? password? : Option String) (st : AppState) :
    (register email? password? st).1 = Except.ok () ∨
    (register email? password? st).2 = st := by
  cases email? with
  | none => right; simp [register, isBlank]
  | some e =>
    cases password? with
    | none => right; simp [register, isBlank]
    | some p =>
      cases he : e.isEmpty with
      | true => right; simp [register, isBlank, he]
      | false =>
        cases hp : p.isEmpty with
        | true => right; simp [register, isBlank, he, hp]
        | false =>
          cases hd : getUser st.users e with
          | some u => right; simp [register, isBlank, he, hp, hd]
          | none => left; simp [register, isBlank, he, hp, hd]

/-- Helper: a login call either succeeds or returns the state unchanged. -/
theorem login_fail_frame (email? password? : Option String) (st : AppState) :
    (login email? password? st).1 = Except.ok () ∨
    (login email? password? st).2 = st := by
  cases email? with
  | none => right; rfl
  | some e =>
    cases h : getUser st.users e with
    | none => right; simp [login, h]
    | some u =>
      by_cases hp : password? = some u.password
      · left; simp [login, h, hp]
      · right; simp [login, h, hp]

/-- Helper: every account in a store reachable through the handlers has a
non-empty identity, a non-empty stored password, and role "user". -/
theorem reachable_store_invariant {st : AppState} (h : Reachable st) :
    ∀ k a, getUser st.users k = some a →
      k.isEmpty = false ∧ a.password.isEmpty = false ∧ a.role = "user" := by
  induction h with
  | init =>
    intro k a ha
    cases ha
  | stepRegister e? p? hst ih =>
    intro k a ha
    rcases register_users_shape e? p? _ with heq | ⟨e, p, _, _, he, hp, hd, heq⟩
    · rw [heq] at ha
      exact ih k a ha
    · rw [heq] at ha
      simp only [getUser] at ha
      by_cases hek : e = k
      · subst hek
        rw [if_pos rfl] at ha
        injection ha with ha
        subst ha
        exact ⟨he, hp, rfl⟩
      · rw [if_neg hek] at ha
        exact ih k a ha
  | stepLogin e? p? hst ih =>
    intro k a ha
    rw [login_users_eq] at ha
    exact ih k a ha
  | stepLogout hst ih =>
    intro k a ha
    exact ih k a ha

/-- Claim C5: immediately after a successful register or (on a program
state reachable through the handlers) a successful authenticate for an
identity, the gate returns that identity; immediately after clear the
gate fails with `UnauthenticatedError` (the dashboard redirects to
login). -/
theorem require_after_auth_and_clear (st : AppState) (e p : String) :
    ((register (some e) (some p) st).1 = Except.ok () →
      require (register (some e) (some p) st).2.sessionUserId = Except.ok e)
    ∧ (Reachable st → (login (some e) (some p) st).1 = Except.ok () →
      require (login (some e) (some p) st).2.sessionUserId = Except.ok e)
    ∧ (∀ s : Option String,
        require (clear s) = Except.error AppError.unauthenticatedError) := by
  refine ⟨?_, ?_, fun s => rfl⟩
  · intro hk
    cases he : e.isEmpty with
    | true => simp [register, isBlank, he] at hk
    | false =>
      cases hp : p.isEmpty with
      | true => simp [register, isBlank, he, hp] at hk
      | false =>
        cases hd : getUser st.users e with
        | some u => simp [register, isBlank, he, hp, hd] at hk
        | none => simp [register, isBlank, he, hp, hd, establish, require]
  · intro hr hk
    cases hd : getUser st.users e with
    | none => simp [login, hd] at hk
    | some u =>
      by_cases hpw : p = u.password
      · have he := (reachable_store_invariant hr e u hd).1
        simp [login, hd, hpw, establish, require, he]
      · simp [login, hd, hpw] at hk

/-- Witness for `require_after_auth_and_clear` at concrete inputs. -/
theorem require_after_auth_and_clear_witness :
    require (register (some "a") (some "p")
        { users := [], sessionUserId := none }).2.sessionUserId = Except.ok "a" ∧
    require (login (some "a") (some "p")
        (register (some "a") (some "p")
          { users := [], sessionUserId := none }).2).2.sessionUserId = Except.ok "a" ∧
    require (clear (some "a")) = Except.error AppError.unauthenticatedError :=
  ⟨(require_after_auth_and_clear { users := [], sessionUserId := none } "a" "p").1 rfl,
   (require_after_auth_and_clear _ "a" "p").2.1
     (Reachable.stepRegister (some "a") (some "p") Reachable.init) rfl,
   (require_after_auth_and_clear { users := [], sessionUserId := none } "a" "p").2.2
     (some "a")⟩

/-- Claim C6: every account held by a store reachable through the
handlers carries the fixed role "user"; the caller supplies no role at
all, so no operation can create an account with a different role. -/
theorem stored_role_always_user {st : AppState} (h : Reachable st)
    (k : String) (a : Account) (ha : getUser st.users k = some a) :
    a.role = "user" :=
  (reachable_store_invariant h k a ha).2.2

/-- Witness for `stored_role_always_user` at a concrete input. -/
theorem stored_role_always_user_witness :
    ({ password := "p", role := "user" } : Account).role = "user" :=
  stored_role_always_user
    (Reachable.stepRegister (some "a") (some "p") Reachable.init)
    "a" { password := "p", role := "user" } rfl

/-- Claim C7: the store is mutated only by register, and register only
inserts — login and logout leave the store untouched, a failed register
leaves the whole state untouched, and a successful register preserves
every existing account. -/
theorem store_mutated_only_by_register :
    (∀ email? password? st, (login email? password? st).2.users = st.users)
    ∧ (∀ st, (logout st).users = st.users)
    ∧ (∀ email? password? st err,
        (register email? password? st).1 = Except.error err →
        (register email? password? st).2 = st)
    ∧ (∀ email? password? st k a, getUser st.users k = some a →
        getUser (register email? password? st).2.users k = some a) := by
  refine ⟨fun e? p? st => login_users_eq e? p? st, fun st => rfl, ?_, ?_⟩
  · intro e? p? st err hk
    rcases register_fail_frame e? p? st with hok | hst
    · rw [hok] at hk
      cases hk
    · exact hst
  · intro e? p? st k a ha
    rcases register_users_shape e? p? st with heq | ⟨e, p, _, _, he, hp, hd, heq⟩
    · rw [heq]
      exact ha
    · rw [heq]
      simp only [getUser]
      by_cases hek : e = k
      · subst hek
        rw [hd] at ha
        cases ha
      · rw [if_neg hek]
        exact ha

/-- Witness for `store_mutated_only_by_register` at concrete inputs. -/
theorem store_mutated_only_by_register_witness :
    (register (some "") (some "p") { users := [], sessionUserId := none }).2 =
      { users := [], sessionUserId := none } ∧
    getUser (register (some "b") (some "q")
        { users := [("a", { password := "p", role := "user" })],
          sessionUserId := none }).2.users "a" =
      some { password := "p", role := "user" } :=
  ⟨store_mutated_only_by_register.2.2.1 (some "") (some "p") _
     AppError.validationError rfl,
   store_mutated_only_by_register.2.2.2 (some "b") (some "q") _ "a"
     { password := "p", role := "user" } rfl⟩

/-- Claim C8: clear is idempotent (clearing an already-empty session is a
no-op, not an error) and establish unconditionally overwrites any prior
session identity. -/
theorem clear_idempotent_establish_overwrites :
    (∀ s : Option String, clear (clear s) = clear s)
    ∧ clear none = none
    ∧ (∀ (e : String) (s : Option String), establish e s = some e) :=
  ⟨fun _ => rfl, rfl, fun _ _ => rfl⟩

/-- Claim C9: a failed register and a failed login leave the session
unchanged; only the success branch establishes the session. -/
theorem failed_auth_preserves_session :
    (∀ email? password? st err,
        (register email? password? st).1 = Except.error err →
        (register email? password? st).2.sessionUserId = st.sessionUserId)
    ∧ (∀ email? password? st err,
        (login email? password? st).1 = Except.error err →
        (login email? password? st).2.sessionUserId = st.sessionUserId) := by
  constructor
  · intro e? p? st err hk
    rcases register_fail_frame e? p? st with hok | hst
    · rw [hok] at hk
      cases hk
    · rw [hst]
  · intro e? p? st err hk
    rcases login_fail_frame e? p? st with hok | hst
    · rw [hok] at hk
      cases hk
    · rw [hst]

/-- Witness for `failed_auth_preserves_session` at concrete inputs. -/
theorem failed_auth_preserves_session_witness :
    (register (some "a") (some "")
        { users := [], sessionUserId := some "z" }).2.sessionUserId = some "z" ∧
    (login (some "a") (some "p")
        { users := [], sessionUserId := some "z" }).2.sessionUserId = some "z" :=
  ⟨failed_auth_preserves_session.1 (some "a") (some "") _
     AppError.validationError rfl,
   failed_auth_preserves_session.2 (some "a") (some "p") _
     AppError.invalidCredentialsError rfl⟩

/-- Claim C10: on any store reachable through the handlers (which never
hold an account with an empty identity or empty password), a login with
an empty or missing identity or an empty or missing password fails with
`InvalidCredentialsError` — login performs no separate validation and
never raises `ValidationError`. -/
theorem login_blank_fields_invalid_credentials (email? password? : Option String)
    (st : AppState) (hr : Reachable st)
    (h : isBlank email? = true ∨ isBlank password? = true) :
    (login email? password? st).1 = Except.error AppError.invalidCredentialsError := by
  cases email? with
  | none => rfl
  | some e =>
    cases hd : getUser st.users e with
    | none => simp [login, hd]
    | some u =>
      have hinv := reachable_store_invariant hr e u hd
      cases h with
      | inl hbe =>
        rw [show isBlank (some e) = e.isEmpty from rfl, hinv.1] at hbe
        cases hbe
      | inr hbp =>
        cases password? with
        | none => simp [login, hd]
        | some p =>
          have hne : p ≠ u.password := by
            intro hpp
            rw [show isBlank (some p) = p.isEmpty from rfl, hpp, hinv.2.1] at hbp
            cases hbp
          simp [login, hd, hne]

/-- Witness for `login_blank_fields_invalid_credentials` at a concrete
reachable state. -/
theorem login_blank_fields_invalid_credentials_witness :
    (login (some "") (some "p")
        (register (some "a") (some "p")
          { users := [], sessionUserId := none }).2).1 =
      Except.error AppError.invalidCredentialsError :=
  login_blank_fields_invalid_credentials (some "") (some "p") _
    (Reachable.stepRegister (some "a") (some "p") Reachable.init) (Or.inl rfl)
